import Mathlib

/-!
Verification of the POS cart allocation engine (`POSCart.tsx`).

The engine's data model and every mutating operation of the cart component
are embedded as executable Lean definitions over `ℚ` (the source uses JS
numbers; quantities and the 1e-4 tolerance are exact rationals here).
Display-only concerns (animations, search filtering, message wording) are
abstracted: each distinct message template becomes one `MsgKind`
constructor carrying the numeric / id data the template interpolates.
-/

attribute [local semireducible] Rat.add Rat.mul Rat.sub Rat.inv

namespace POSCart

/-- Float tolerance used by the stock checks (`0.0001` in the source). -/
def eps : ℚ := 1 / 10000

/-- `CART_LIMITS.MAX_LINES`. -/
def MAX_LINES : Nat := 10

/-- `CART_LIMITS.MAX_QTY_PER_LINE`. -/
def MAX_QTY_PER_LINE : ℚ := 50

/-- `CART_LIMITS.MAX_TOTAL_VALUE`. -/
def MAX_TOTAL_VALUE : ℚ := 500000

/-- JS `v || d` on numbers: `d` when `v` is `0` (or absent, handled by
`Option.getD 0` at call sites), else `v`. -/
def jsOr (v d : ℚ) : ℚ := if v = 0 then d else v

/-- One sellable package of a product (`ProductPackage`): `price` is the
optional override price. -/
structure ProductPackage where
  name : String
  factor : ℚ
  price : Option ℚ
deriving Repr, DecidableEq

/-- Per-warehouse stock entry (`StockLevel`). -/
structure StockLevel where
  warehouseId : String
  quantity : ℚ
deriving Repr, DecidableEq

/-- The fields of `Product` the cart engine reads. -/
structure Product where
  id : String
  price : ℚ
  trackStock : Bool
  baseUnit : String
  minPurchaseQuantity : Option ℚ
  packages : List ProductPackage
  stockLevels : List StockLevel
deriving Repr, DecidableEq

/-- A warehouse (`Warehouse`), display name kept for completeness. -/
structure Warehouse where
  id : String
  name : String
deriving Repr, DecidableEq

/-- The catalog snapshot the component reads (`mockProducts` /
`mockWarehouses` module globals in the source). -/
structure Ctx where
  products : List Product
  warehouses : List Warehouse
deriving Repr, DecidableEq

/-- A cart line (`CartItem`); ids are modelled as `Nat` drawn from a
counter (the source generates opaque unique strings). -/
structure CartItem where
  id : Nat
  productId : String
  quantity : ℚ
  unitPrice : ℚ
  selectedPackage : String
  baseUnitQuantity : ℚ
  warehouseId : String
deriving Repr, DecidableEq

/-- Abstraction of the distinct user-facing message templates the
component produces, each carrying the data its template interpolates. -/
inductive MsgKind where
  | productNotFound
  | stockInsufficientMsg (warehouseId : String) (available requested : ℚ)
  | orphanStockMsg (remaining minPurchase : ℚ)
  | genericStockMsg
  | noStockForProduct (totalStock : ℚ)
  | noWarehouseConfigured
  | qtyLimitLine
  | lineLimitReached
  | qtyLimitReached
  | mergeQtyLimit
  | mergeStockMsg (needed : ℚ)
  | mergeStockWarehouseMsg
deriving Repr, DecidableEq

/-- The `validationError` state: a structured message plus the optional
product id it is attributed to. -/
structure ValidationError where
  message : MsgKind
  productId : Option String
deriving Repr, DecidableEq

/-- Pending Merge/Split decision (`MergeConflict`). -/
structure MergeConflict where
  product : Product
  selectedPackage : ProductPackage
  existingItem : CartItem
  alternativeWarehouseId : String
  quantityToAdd : ℚ
deriving Repr, DecidableEq

/-- The component state the engine mutates: `items`, `validationError`,
`mergeConflict`, plus the id counter for fresh lines. -/
structure CartState where
  items : List CartItem
  validationError : Option ValidationError
  mergeConflict : Option MergeConflict
  nextId : Nat
deriving Repr, DecidableEq

/-- Result of `checkStockAvailability`; `available = none` stands for the
source's `Infinity`. -/
structure CheckOutcome where
  allowed : Bool
  available : Option ℚ
  message : Option MsgKind
deriving Repr, DecidableEq

/-- True when the outcome is a rejection of kind `StockInsufficient`. -/
def CheckOutcome.stockRejected (r : CheckOutcome) : Bool :=
  !r.allowed &&
    (match r.message with
     | some (.stockInsufficientMsg _ _ _) => true
     | _ => false)

/-- True when the outcome is a rejection of kind `OrphanStockViolation`. -/
def CheckOutcome.orphanRejected (r : CheckOutcome) : Bool :=
  !r.allowed &&
    (match r.message with
     | some (.orphanStockMsg _ _) => true
     | _ => false)

/-- `getPriceForPackage`: package override price if present, else the
product's price. -/
def getPriceForPackage (product : Product) (packageName : String) : ℚ :=
  match product.packages.find? (fun p => p.name == packageName) with
  | some selectedPackage => selectedPackage.price.getD product.price
  | none => product.price

/-- The stock quantity a product has in a warehouse
(`stockLevels.find(...)?.quantity ?? 0`). -/
def stockOf (product : Product) (warehouseId : String) : ℚ :=
  ((product.stockLevels.find? (fun s => s.warehouseId == warehouseId)).map
    (fun s => s.quantity)).getD 0

/-- Sum of `baseUnitQuantity` over the lines matching the product and
warehouse, except the excluded line (the `inCartQuantity` reduce). -/
def inCartQuantity (items : List CartItem) (productId warehouseId : String)
    (excludeItemId : Option Nat) : ℚ :=
  ((items.filter (fun i =>
      i.productId == productId && i.warehouseId == warehouseId &&
        !(excludeItemId == some i.id))).map
    (fun i => i.baseUnitQuantity)).sum

/-- `checkStockAvailability`: the Stock Availability Checker. -/
def checkStockAvailability (ctx : Ctx) (items : List CartItem)
    (productId warehouseId : String) (requestedTotalBaseQty : ℚ)
    (excludeItemId : Option Nat) : CheckOutcome :=
  match ctx.products.find? (fun p => p.id == productId) with
  | none => ⟨true, none, none⟩
  | some product =>
    if product.trackStock = false then ⟨true, none, none⟩
    else
      let availableStock : ℚ := stockOf product warehouseId
      let totalRequired :=
        inCartQuantity items productId warehouseId excludeItemId + requestedTotalBaseQty
      if totalRequired > availableStock + eps then
        ⟨false, some availableStock,
          some (.stockInsufficientMsg warehouseId availableStock totalRequired)⟩
      else
        let remainingStock := availableStock - totalRequired
        let minPurchase := product.minPurchaseQuantity.getD 0
        if minPurchase > 0 ∧ remainingStock > eps ∧ remainingStock < minPurchase - eps then
          ⟨false, some availableStock, some (.orphanStockMsg remainingStock minPurchase)⟩
        else
          ⟨true, some availableStock, none⟩

/-- Sum of `baseUnitQuantity` over the lines of a product/warehouse pair
other than two given line ids (the `otherItemsQty` reduce of the merge
branches). -/
def otherLinesBase (items : List CartItem) (productId warehouseId : String)
    (id1 id2 : Nat) : ℚ :=
  ((items.filter (fun i => i.productId == productId &&
      i.warehouseId == warehouseId && i.id != id1 && i.id != id2)).map
    (fun i => i.baseUnitQuantity)).sum

/-- Replace the first item satisfying the predicate (the source's
index-based `newItems[existingItemIndex] = ...` update). -/
def setFirst (pred : CartItem → Bool) (newItem : CartItem) :
    List CartItem → List CartItem
  | [] => []
  | i :: rest => if pred i then newItem :: rest else i :: setFirst pred newItem rest

/-- The new `CartItem` object built by `executeAddItem`. -/
def mkItem (s : CartState) (fullProduct : Product)
    (selectedPackage : ProductPackage) (warehouseId : String)
    (quantity : ℚ) : CartItem :=
  { id := s.nextId
    productId := fullProduct.id
    quantity := quantity
    unitPrice := getPriceForPackage fullProduct selectedPackage.name
    selectedPackage := selectedPackage.name
    baseUnitQuantity := quantity * selectedPackage.factor
    warehouseId := warehouseId }

/-- The grouping/commit tail of `executeAddItem`: merge into an identical
line or append a new line, enforcing the limits and the stock check. -/
def commitAdd (ctx : Ctx) (s : CartState) (fullProduct : Product)
    (selectedPackage : ProductPackage) (warehouseIdToUse : String)
    (quantity : ℚ) : CartState :=
  match s.items.find? (fun i => i.productId == fullProduct.id &&
      i.selectedPackage == selectedPackage.name &&
      i.warehouseId == warehouseIdToUse) with
  | some currentItem =>
    let newQuantity := currentItem.quantity + quantity
    if newQuantity > MAX_QTY_PER_LINE then
      { s with validationError := some ⟨.qtyLimitLine, none⟩ }
    else
      let newTotalBase := newQuantity * selectedPackage.factor
      let stockCheck := checkStockAvailability ctx s.items fullProduct.id
        warehouseIdToUse newTotalBase (some currentItem.id)
      if stockCheck.allowed = false then
        { s with validationError :=
            (some ⟨stockCheck.message.getD .genericStockMsg, some fullProduct.id⟩) }
      else
        let updatedItems := setFirst
          (fun i => i.productId == fullProduct.id &&
            i.selectedPackage == selectedPackage.name &&
            i.warehouseId == warehouseIdToUse)
          { currentItem with quantity := newQuantity, baseUnitQuantity := newTotalBase }
          s.items
        { s with items := updatedItems }
  | none =>
    if MAX_LINES ≤ s.items.length then
      { s with validationError := some ⟨.lineLimitReached, none⟩ }
    else
      let stockCheck := checkStockAvailability ctx s.items fullProduct.id
        warehouseIdToUse (quantity * selectedPackage.factor) none
      if stockCheck.allowed = false then
        { s with validationError :=
            (some ⟨stockCheck.message.getD .genericStockMsg, some fullProduct.id⟩) }
      else
        { s with
            items := s.items ++ [mkItem s fullProduct selectedPackage warehouseIdToUse quantity]
            nextId := s.nextId + 1 }

/-- `executeAddItem`: warehouse selection followed by `commitAdd`. -/
def executeAddItem (ctx : Ctx) (s : CartState) (fullProduct : Product)
    (selectedPackage : ProductPackage) (forcedWarehouseId : Option String)
    (quantity : ℚ) : CartState :=
  match forcedWarehouseId with
  | some w => commitAdd ctx s fullProduct selectedPackage w quantity
  | none =>
    if fullProduct.trackStock then
      let baseQty := quantity * selectedPackage.factor
      let fromExisting : Option String :=
        match s.items.find? (fun i => i.productId == fullProduct.id &&
            i.selectedPackage == selectedPackage.name) with
        | some ex =>
          if (checkStockAvailability ctx s.items fullProduct.id ex.warehouseId
              baseQty none).allowed
          then some ex.warehouseId else none
        | none => none
      let chosen : Option String :=
        match fromExisting with
        | some w => some w
        | none =>
          (fullProduct.stockLevels.find? (fun sl =>
            (checkStockAvailability ctx s.items fullProduct.id sl.warehouseId
              baseQty none).allowed)).map (fun sl => sl.warehouseId)
      match chosen with
      | some w => commitAdd ctx s fullProduct selectedPackage w quantity
      | none =>
        let totalStock := (fullProduct.stockLevels.map (fun sl => sl.quantity)).sum
        { s with validationError :=
            (some ⟨.noStockForProduct totalStock, some fullProduct.id⟩) }
    else
      match ctx.warehouses.head? with
      | some w => commitAdd ctx s fullProduct selectedPackage w.id quantity
      | none => { s with validationError := some ⟨.noWarehouseConfigured, none⟩ }

/-- `addItem`: the add-line entry point, possibly surfacing a Merge/Split
decision instead of mutating. -/
def addItem (ctx : Ctx) (s : CartState) (product : Product)
    (selectedPackageName : String) : CartState :=
  match ctx.products.find? (fun p => p.id == product.id) with
  | none => { s with validationError := some ⟨.productNotFound, none⟩ }
  | some fullProduct =>
    match fullProduct.packages.find? (fun p => p.name == selectedPackageName) with
    | none => s
    | some selectedPackage =>
      let s1 := { s with validationError := none }
      let minBase := jsOr (fullProduct.minPurchaseQuantity.getD 0) 1
      let quantityToAdd : ℚ :=
        if selectedPackage.factor * 1 < minBase
        then ((⌈minBase / selectedPackage.factor⌉ : ℤ) : ℚ) else 1
      let quantityToAddBase := quantityToAdd * selectedPackage.factor
      let conflictTriggered : Option MergeConflict :=
        match s1.items.find? (fun i => i.productId == fullProduct.id &&
            i.selectedPackage == selectedPackageName) with
        | some existingItem =>
          if fullProduct.trackStock then
            let canMerge := checkStockAvailability ctx s1.items fullProduct.id
              existingItem.warehouseId quantityToAddBase none
            let alternativeStock := fullProduct.stockLevels.find? (fun sl =>
              sl.warehouseId != existingItem.warehouseId &&
              (checkStockAvailability ctx s1.items fullProduct.id sl.warehouseId
                quantityToAddBase none).allowed)
            match alternativeStock with
            | some alt =>
              if canMerge.allowed then
                some ⟨fullProduct, selectedPackage, existingItem,
                  alt.warehouseId, quantityToAdd⟩
              else none
            | none => none
          else none
        | none => none
      match conflictTriggered with
      | some c => { s1 with mergeConflict := some c }
      | none => executeAddItem ctx s1 fullProduct selectedPackage none quantityToAdd

/-- `handleConfirmMerge`: resolve the pending decision by merging into the
existing line's warehouse. -/
def handleConfirmMerge (ctx : Ctx) (s : CartState) : CartState :=
  match s.mergeConflict with
  | none => s
  | some c =>
    let s' := executeAddItem ctx s c.product c.selectedPackage
      (some c.existingItem.warehouseId) c.quantityToAdd
    { s' with mergeConflict := none }

/-- `handleConfirmSeparate`: resolve the pending decision by creating a
line in the alternative warehouse. -/
def handleConfirmSeparate (ctx : Ctx) (s : CartState) : CartState :=
  match s.mergeConflict with
  | none => s
  | some c =>
    let s' := executeAddItem ctx s c.product c.selectedPackage
      (some c.alternativeWarehouseId) c.quantityToAdd
    { s' with mergeConflict := none }

/-- Abandoning the pending decision (the modal's cancel action). -/
def handleCancelMerge (s : CartState) : CartState :=
  { s with mergeConflict := none }

/-- `updateQuantity`. -/
def updateQuantity (ctx : Ctx) (s : CartState) (itemId : Nat)
    (newQuantity : ℚ) : CartState :=
  if newQuantity < 0 then s
  else
    match s.items.find? (fun i => i.id == itemId) with
    | none => s
    | some item =>
      match ctx.products.find? (fun p => p.id == item.productId) with
      | none => s
      | some fullProduct =>
        match fullProduct.packages.find? (fun p => p.name == item.selectedPackage) with
        | none => s
        | some pkg =>
          if newQuantity > MAX_QTY_PER_LINE then
            { s with validationError := some ⟨.qtyLimitReached, none⟩ }
          else
            let newBaseQty := newQuantity * pkg.factor
            let stockCheck := checkStockAvailability ctx s.items fullProduct.id
              item.warehouseId newBaseQty (some itemId)
            if stockCheck.allowed = false then
              { s with validationError :=
                  (some ⟨stockCheck.message.getD .genericStockMsg, some fullProduct.id⟩) }
            else
              let newItem := { item with quantity := newQuantity, baseUnitQuantity := newBaseQty }
              let updatedItems := setFirst (fun i => i.id == itemId) newItem s.items
              { s with validationError := none, items := updatedItems }

/-- `updatePackage`, including the forced-merge branch when a line already
exists for the same product/warehouse with the new package. -/
def updatePackage (ctx : Ctx) (s : CartState) (itemId : Nat)
    (newPackageName : String) : CartState :=
  match s.items.find? (fun i => i.id == itemId) with
  | none => s
  | some item =>
    match ctx.products.find? (fun p => p.id == item.productId) with
    | none => s
    | some fullProduct =>
      match fullProduct.packages.find? (fun p => p.name == newPackageName) with
      | none => s
      | some newSelectedPackage =>
        let newBaseQty := item.quantity * newSelectedPackage.factor
        match s.items.find? (fun i => i.id != itemId &&
            i.productId == item.productId &&
            i.warehouseId == item.warehouseId &&
            i.selectedPackage == newPackageName) with
        | some existingItem =>
          let mergedQty := existingItem.quantity + item.quantity
          let mergedBaseQty := mergedQty * newSelectedPackage.factor
          if mergedQty > MAX_QTY_PER_LINE then
            { s with validationError := some ⟨.mergeQtyLimit, none⟩ }
          else
            let stockLevel := stockOf fullProduct item.warehouseId
            let otherItemsQty :=
              otherLinesBase s.items fullProduct.id item.warehouseId itemId existingItem.id
            if otherItemsQty + mergedBaseQty > stockLevel then
              { s with validationError :=
                  (some ⟨.mergeStockMsg (mergedBaseQty + otherItemsQty), some fullProduct.id⟩) }
            else
              let updatedItems := (s.items.filter (fun i => i.id != itemId)).map (fun i =>
                if i.id == existingItem.id then
                  { i with quantity := mergedQty, baseUnitQuantity := mergedBaseQty }
                else i)
              { s with validationError := none, items := updatedItems }
        | none =>
          let stockCheck := checkStockAvailability ctx s.items fullProduct.id
            item.warehouseId newBaseQty (some itemId)
          if stockCheck.allowed = false then
            { s with validationError :=
                (some ⟨stockCheck.message.getD .genericStockMsg, some fullProduct.id⟩) }
          else
            let newItem := { item with
              selectedPackage := newPackageName
              unitPrice := getPriceForPackage fullProduct newPackageName
              baseUnitQuantity := newBaseQty }
            let updatedItems := setFirst (fun i => i.id == itemId) newItem s.items
            { s with validationError := none, items := updatedItems }

/-- `updateWarehouse`, including its merge branch. -/
def updateWarehouse (ctx : Ctx) (s : CartState) (itemId : Nat)
    (newWarehouseId : String) : CartState :=
  match s.items.find? (fun i => i.id == itemId) with
  | none => s
  | some item =>
    if item.warehouseId == newWarehouseId then s
    else
      match ctx.products.find? (fun p => p.id == item.productId) with
      | none => s
      | some fullProduct =>
        let stockCheck := checkStockAvailability ctx s.items fullProduct.id
          newWarehouseId item.baseUnitQuantity (some itemId)
        if stockCheck.allowed = false then
          { s with validationError :=
              (some ⟨stockCheck.message.getD .genericStockMsg, some fullProduct.id⟩) }
        else
          let s1 := { s with validationError := none }
          match s1.items.find? (fun i => i.id != itemId &&
              i.productId == item.productId &&
              i.selectedPackage == item.selectedPackage &&
              i.warehouseId == newWarehouseId) with
          | some existingNW =>
            let mergedQty := existingNW.quantity + item.quantity
            let factorNW :=
              match fullProduct.packages.find? (fun p => p.name == item.selectedPackage) with
              | some p => jsOr p.factor 1
              | none => 1
            let mergedBaseQty := mergedQty * factorNW
            if mergedQty > MAX_QTY_PER_LINE then
              { s1 with validationError := some ⟨.mergeQtyLimit, none⟩ }
            else
              let stockLevel := stockOf fullProduct newWarehouseId
              let otherItemsQty :=
                otherLinesBase s1.items fullProduct.id newWarehouseId itemId existingNW.id
              if otherItemsQty + mergedBaseQty > stockLevel then
                { s1 with validationError :=
                    (some ⟨.mergeStockWarehouseMsg, some fullProduct.id⟩) }
              else
                let updatedItems := (s1.items.map (fun i =>
                  if i.id == existingNW.id then
                    { i with quantity := mergedQty, baseUnitQuantity := mergedBaseQty }
                  else i)).filter (fun i => i.id != itemId)
                { s1 with items := updatedItems }
          | none =>
            let updatedItems :=
              setFirst (fun i => i.id == itemId) { item with warehouseId := newWarehouseId } s1.items
            { s1 with items := updatedItems }

/-- `removeItem` (the 300ms animation delay is immaterial to the final
state and elided). -/
def removeItem (s : CartState) (itemId : Nat) : CartState :=
  match s.items.find? (fun i => i.id == itemId) with
  | none => s
  | some itemToRemove =>
    let ve : Option ValidationError :=
      match s.validationError with
      | some v => if v.productId == some itemToRemove.productId then none else some v
      | none => none
    { s with validationError := ve, items := s.items.filter (fun i => i.id != itemId) }

/-- One entry of `stockValidationErrors`: does this line carry a stock /
orphan-stock display error. -/
def itemStockError (ctx : Ctx) (items : List CartItem) (item : CartItem) : Bool :=
  match ctx.products.find? (fun p => p.id == item.productId) with
  | none => false
  | some fullProduct =>
    if fullProduct.trackStock = false then false
    else
      let totalInCart :=
        ((items.filter (fun i => i.productId == item.productId &&
            i.warehouseId == item.warehouseId)).map
          (fun i => i.baseUnitQuantity)).sum
      let stockLevel := stockOf fullProduct item.warehouseId
      if totalInCart > stockLevel + eps then true
      else
        let remaining := stockLevel - totalInCart
        let minPurchase := fullProduct.minPurchaseQuantity.getD 0
        decide (minPurchase > 0 ∧ remaining > eps ∧ remaining < minPurchase - eps)

/-- `hasStockErrors`: some line carries a stock validation error. -/
def hasStockErrors (ctx : Ctx) (items : List CartItem) : Bool :=
  items.any (itemStockError ctx items)

/-- One entry of `minQtyValidationErrors` (note the `0.001` tolerance used
there, distinct from the checker's `0.0001`). -/
def itemMinQtyError (ctx : Ctx) (item : CartItem) : Bool :=
  match ctx.products.find? (fun p => p.id == item.productId) with
  | none => false
  | some fullProduct =>
    let minBase := fullProduct.minPurchaseQuantity.getD 0
    if minBase = 0 then false
    else decide (item.baseUnitQuantity < minBase - 1 / 1000)

/-- `hasMinQtyErrors`. -/
def hasMinQtyErrors (ctx : Ctx) (items : List CartItem) : Bool :=
  items.any (itemMinQtyError ctx)

/-- `calculateTotal`: the cart's monetary total. -/
def calculateTotal (items : List CartItem) : ℚ :=
  (items.map (fun i => i.unitPrice * i.quantity)).sum

/-- `totalValueExceeded`. -/
def totalValueExceeded (s : CartState) : Bool :=
  decide (calculateTotal s.items > MAX_TOTAL_VALUE)

/-- The `disabled` predicate of the finalize button. -/
def finalizeDisabled (ctx : Ctx) (s : CartState) : Bool :=
  s.items.isEmpty || totalValueExceeded s || s.validationError.isSome ||
    s.mergeConflict.isSome || hasStockErrors ctx s.items || hasMinQtyErrors ctx s.items

/-- The `handleFinalize` click handler body. -/
def handleFinalize (ctx : Ctx) (s : CartState) : CartState :=
  if hasStockErrors ctx s.items || hasMinQtyErrors ctx s.items then s
  else { s with items := [], validationError := none }

/-- The finalize entry point as exposed to the user: the click handler
guarded by the button's `disabled` predicate. -/
def finalizeOp (ctx : Ctx) (s : CartState) : CartState :=
  if finalizeDisabled ctx s then s else handleFinalize ctx s

/-! ### The catalog snapshot (`mocks/data.ts`), fields the engine reads -/

def wh1 : Warehouse := ⟨"wh_1", "Armazem Principal"⟩

def wh2 : Warehouse := ⟨"wh_2", "Loja A"⟩

def prod1 : Product :=
  { id := "prod_1", price := 850, trackStock := true, baseUnit := "UN"
    minPurchaseQuantity := some 12
    packages := [⟨"UN", 1, some 850⟩, ⟨"CX", 6, some 5000⟩]
    stockLevels := [⟨"wh_1", 100⟩, ⟨"wh_2", 20⟩] }

def prod2 : Product :=
  { id := "prod_2", price := 4500, trackStock := true, baseUnit := "KG"
    minPurchaseQuantity := none
    packages := [⟨"SACO", 5, none⟩]
    stockLevels := [⟨"wh_1", 50⟩] }

def prod3 : Product :=
  { id := "prod_3", price := 25000, trackStock := false, baseUnit := "SERV"
    minPurchaseQuantity := none
    packages := [⟨"SERV", 1, none⟩]
    stockLevels := [] }

def prod4 : Product :=
  { id := "prod_4", price := 250, trackStock := true, baseUnit := "UN"
    minPurchaseQuantity := none
    packages := [⟨"UN", 1, none⟩, ⟨"FARDO", 6, some 1400⟩]
    stockLevels := [⟨"wh_1", 240⟩, ⟨"wh_2", 60⟩] }

def mockCtx : Ctx := ⟨[prod1, prod2, prod3, prod4], [wh1, wh2]⟩

/-- The empty cart the component starts from. -/
def emptyCart : CartState := ⟨[], none, none, 0⟩

/-! ### Well-formedness predicates used by the invariant claims -/

/-- Conversion factor of a line's current package, looked up in the
catalog: `none` when the product or package cannot be resolved. -/
def packFactor (ctx : Ctx) (i : CartItem) : Option ℚ :=
  match ctx.products.find? (fun p => p.id == i.productId) with
  | none => none
  | some p => (p.packages.find? (fun pk => pk.name == i.selectedPackage)).map
      (fun pk => pk.factor)

/-- Boolean form of the per-line invariant `baseQuantity = quantity * factor`
(vacuously true when the package cannot be resolved). -/
def itemWFb (ctx : Ctx) (i : CartItem) : Bool :=
  match packFactor ctx i with
  | none => true
  | some f => i.baseUnitQuantity == i.quantity * f

/-- The per-line invariant `baseQuantity = quantity * factor`. -/
def ItemWF (ctx : Ctx) (i : CartItem) : Prop := itemWFb ctx i = true

/-- Every line of the list satisfies the base-quantity invariant. -/
def ItemsWF (ctx : Ctx) (items : List CartItem) : Prop :=
  ∀ i ∈ items, ItemWF ctx i

/-- All package conversion factors in the catalog are positive (§3 of the
data model: `factor > 0`). -/
def CatalogWF (ctx : Ctx) : Prop :=
  ∀ p ∈ ctx.products, ∀ pk ∈ p.packages, 0 < pk.factor

/-- Line ids are pairwise distinct. -/
def NodupIds (items : List CartItem) : Prop :=
  (items.map (fun i => i.id)).Nodup

/-- Boolean form: a pending conflict stores the catalog's own product and
one of its packages (what `addItem` always stores). -/
def conflictWFb (ctx : Ctx) : Option MergeConflict → Bool
  | none => true
  | some c =>
    (ctx.products.find? (fun p => p.id == c.product.id) == some c.product) &&
      (c.product.packages.find? (fun pk => pk.name == c.selectedPackage.name) ==
        some c.selectedPackage)

/-- A pending conflict (if any) references the catalog consistently. -/
def ConflictWF (ctx : Ctx) (mc : Option MergeConflict) : Prop :=
  conflictWFb ctx mc = true

instance (ctx : Ctx) (i : CartItem) : Decidable (ItemWF ctx i) :=
  inferInstanceAs (Decidable (itemWFb ctx i = true))

instance (ctx : Ctx) (items : List CartItem) : Decidable (ItemsWF ctx items) :=
  inferInstanceAs (Decidable (∀ i ∈ items, ItemWF ctx i))

instance (ctx : Ctx) : Decidable (CatalogWF ctx) :=
  inferInstanceAs (Decidable (∀ p ∈ ctx.products, ∀ pk ∈ p.packages, 0 < pk.factor))

instance (items : List CartItem) : Decidable (NodupIds items) :=
  inferInstanceAs (Decidable ((items.map (fun i : CartItem => i.id)).Nodup))

instance (ctx : Ctx) (mc : Option MergeConflict) : Decidable (ConflictWF ctx mc) :=
  inferInstanceAs (Decidable (conflictWFb ctx mc = true))

/-! ### Concrete states used in scenarios, counterexamples and witnesses -/

/-- Scenario B line: `prod_1` in `UN`, quantity `q`, currently in `wh_1`. -/
def c1Line (q : ℚ) : CartItem := ⟨0, "prod_1", q, 850, "UN", q, "wh_1"⟩

/-- Scenario B state: a single `prod_1` line of `q` base units in `wh_1`. -/
def c1State (q : ℚ) : CartState := ⟨[c1Line q], none, none, 1⟩

/-- The line the first `addItem` of Scenario A creates. -/
def c2Line : CartItem := ⟨0, "prod_4", 1, 250, "UN", 1, "wh_1"⟩

/-- Scenario A, after the first `addItem`. -/
def c2s1 : CartState := addItem mockCtx emptyCart prod4 "UN"

/-- Scenario A, after the second `addItem`. -/
def c2s2 : CartState := addItem mockCtx c2s1 prod4 "UN"

/-- A concrete pending Merge/Split decision (the one Scenario A yields). -/
def pendingConf : MergeConflict := ⟨prod4, ⟨"UN", 1, none⟩, c2Line, "wh_2", 1⟩

/-- One `prod_4` line with the Scenario A decision pending. -/
def c3State : CartState := ⟨[c2Line], none, some pendingConf, 1⟩

/-- Two lines of `prod_1` in `wh_2`: 8 base units as `UN` and 2 `CX`
(12 base units) — exactly the warehouse's stock of 20. -/
def c4State : CartState :=
  ⟨[⟨0, "prod_1", 8, 850, "UN", 8, "wh_2"⟩, ⟨1, "prod_1", 2, 5000, "CX", 12, "wh_2"⟩],
    none, none, 2⟩

/-- One `prod_1` line at exactly the minimum purchase quantity. -/
def c7State : CartState := ⟨[⟨0, "prod_1", 12, 850, "UN", 12, "wh_1"⟩], none, none, 1⟩

/-- A state finalize accepts: one `prod_4` unit, no errors. -/
def goodState : CartState := ⟨[c2Line], none, none, 1⟩

/-- A state with a stock validation error: 30 base units of `prod_1`
allocated from `wh_2`, which only stocks 20. -/
def overStockState : CartState := ⟨[⟨0, "prod_1", 30, 850, "UN", 30, "wh_2"⟩], none, none, 1⟩

/-- A state carrying a stale validation message, used to observe that the
silent return of `addItem` does not touch it. -/
def c10State : CartState := ⟨[c2Line], some ⟨.qtyLimitReached, none⟩, none, 1⟩

/-! ### Theorems -/

/-- C2: from the empty cart, `addItem(prod_4, "UN")` creates one line of
quantity 1 in `wh_1`; the second identical call mutates nothing and leaves
a pending Merge/Split decision (alternative warehouse `wh_2`, quantity 1);
confirming the merge yields one line of quantity 2 in `wh_1`, confirming
the separation yields two lines of quantity 1 in `wh_1` and `wh_2`. -/
theorem merge_split_scenario_c2 :
    c2s1.items = [c2Line] ∧ c2s1.mergeConflict = none ∧
    c2s2.items = [c2Line] ∧
    c2s2.mergeConflict = some ⟨prod4, ⟨"UN", 1, none⟩, c2Line, "wh_2", 1⟩ ∧
    (handleConfirmMerge mockCtx c2s2).items =
      [⟨0, "prod_4", 2, 250, "UN", 2, "wh_1"⟩] ∧
    (handleConfirmMerge mockCtx c2s2).mergeConflict = none ∧
    (handleConfirmSeparate mockCtx c2s2).items =
      [c2Line, ⟨1, "prod_4", 1, 250, "UN", 1, "wh_2"⟩] ∧
    (handleConfirmSeparate mockCtx c2s2).mergeConflict = none := by decide

/-- C10: `addItem` with a product that resolves in the catalog but a
package name that is not among its packages returns the state unchanged:
no line is touched and no validation message is produced. -/
theorem addItem_unknown_package_c10 (ctx : Ctx) (s : CartState)
    (product : Product) (pkgName : String) (fullProduct : Product)
    (hfind : ctx.products.find? (fun p => p.id == product.id) = some fullProduct)
    (hpkg : fullProduct.packages.find? (fun p => p.name == pkgName) = none) :
    addItem ctx s product pkgName = s := by
  unfold addItem
  rw [hfind]
  simp only [hpkg]

/-- Witness for C10 at the mock catalog: `prod_1` with package "XX". -/
theorem addItem_unknown_package_c10_witness :
    addItem mockCtx c10State prod1 "XX" = c10State :=
  addItem_unknown_package_c10 mockCtx c10State prod1 "XX" prod1 (by decide) (by decide)

/-- Counterexample to C3: with a Merge/Split decision pending,
`updateQuantity` is not refused — it mutates the cart line. -/
theorem pending_gate_counterexample_c3 :
    c3State.mergeConflict.isSome = true ∧
    (updateQuantity mockCtx c3State 0 5).items ≠ c3State.items ∧
    (updateQuantity mockCtx c3State 0 5).items =
      [⟨0, "prod_4", 5, 250, "UN", 5, "wh_1"⟩] := by decide

/-- Counterexample to C4: `updatePackage` merging the 2-`CX` line of
`prod_1` into the 8-`UN` line commits a combined allocation of 10 base
units from `wh_2` (stock 20) although the Stock Availability Checker
rejects those 10 base units as an orphan-stock violation (remaining 10
would be below the minimum purchase of 12). -/
theorem updatePackage_merge_counterexample_c4 :
    (updatePackage mockCtx c4State 1 "UN").items =
      [⟨0, "prod_1", 10, 850, "UN", 10, "wh_2"⟩] ∧
    (checkStockAvailability mockCtx [] "prod_1" "wh_2" 10 none).allowed = false ∧
    (checkStockAvailability mockCtx [] "prod_1" "wh_2" 10 none).orphanRejected = true := by
  decide

/-- Counterexample to C6: a line created by `addItem` for `prod_2`'s
`SACO` package (factor 5, no override price) has `unitPrice = 4500 =
prod_2.price`, not `prod_2.price * 5 = 22500`. -/
theorem unitPrice_counterexample_c6 :
    (addItem mockCtx emptyCart prod2 "SACO").items =
      [⟨0, "prod_2", 1, 4500, "SACO", 5, "wh_1"⟩] ∧
    prod2.price * 5 = 22500 ∧ ((4500 : ℚ) = 22500 → False) := by decide

/-- Counterexample to C7: `updateQuantity` commits quantity 1 on a
`prod_1` line (minimum purchase 12, `UN` factor 1) without any rejection,
leaving a line below the minimum-purchase bound. -/
theorem minQty_counterexample_c7 :
    (updateQuantity mockCtx c7State 0 1).items =
      [⟨0, "prod_1", 1, 850, "UN", 1, "wh_1"⟩] ∧
    (updateQuantity mockCtx c7State 0 1).validationError = none ∧
    prod1.minPurchaseQuantity.getD 0 = 12 ∧ (1 : ℚ) < 12 := by decide

/-- Counterexample to C8: `updatePackage` to a package name the product
does not have is refused, yet it is silent — the state is returned
unchanged and no validation message is produced. -/
theorem silent_rejection_counterexample_c8 :
    updatePackage mockCtx goodState 0 "NOPE" = goodState ∧
    goodState.validationError = none ∧
    goodState.items.map (fun i => i.selectedPackage) = ["UN"] := by decide

/-- C5: finalize (the button's `disabled` gate plus `handleFinalize`) is
refused — returning the state unchanged — whenever some line carries a
stock validation error, some line carries a minimum-quantity validation
error, or the total monetary value exceeds `MAX_TOTAL_VALUE`; and
whenever it does change the state, none of those conditions held and all
lines are cleared. -/
theorem finalize_conditions_c5 (ctx : Ctx) (s : CartState) :
    ((hasStockErrors ctx s.items = true ∨ hasMinQtyErrors ctx s.items = true ∨
        calculateTotal s.items > MAX_TOTAL_VALUE) → finalizeOp ctx s = s) ∧
    (finalizeOp ctx s ≠ s →
      hasStockErrors ctx s.items = false ∧ hasMinQtyErrors ctx s.items = false ∧
      calculateTotal s.items ≤ MAX_TOTAL_VALUE ∧ (finalizeOp ctx s).items = []) := by
  constructor
  · intro h
    have hd : finalizeDisabled ctx s = true := by
      rcases h with h | h | h
      · simp [finalizeDisabled, h]
      · simp [finalizeDisabled, h]
      · have ht : totalValueExceeded s = true := by
          simp [totalValueExceeded]
          exact h
        simp [finalizeDisabled, ht]
    simp [finalizeOp, hd]
  · intro hne
    by_cases hd : finalizeDisabled ctx s = true
    · exact absurd (by simp [finalizeOp, hd]) hne
    · have hd' : finalizeDisabled ctx s = false := by
        simpa using hd
      have hparts := hd'
      simp only [finalizeDisabled, Bool.or_eq_false_iff] at hparts
      obtain ⟨⟨⟨⟨⟨-, h2⟩, h3⟩, -⟩, h5⟩, h6⟩ := hparts
      have htot : calculateTotal s.items ≤ MAX_TOTAL_VALUE := by
        simp only [totalValueExceeded, decide_eq_false_iff_not, not_lt] at h2
        exact h2
      refine ⟨h5, h6, htot, ?_⟩
      simp [finalizeOp, hd', handleFinalize, h5, h6]

/-- Witness for C5: finalize refused on a state with a stock error, and
clearing the lines of a clean one-line state. -/
theorem finalize_conditions_c5_witness :
    finalizeOp mockCtx overStockState = overStockState ∧
    (finalizeOp mockCtx goodState).items = [] :=
  ⟨(finalize_conditions_c5 mockCtx overStockState).1 (Or.inl (by decide)),
   ((finalize_conditions_c5 mockCtx goodState).2 (by decide)).2.2.2⟩

/-- C1: the Stock Availability Checker. When the product does not track
stock the call is allowed with infinite availability; when it does, with
`total = inCart + requested`, the call is rejected as `StockInsufficient`
iff `total > stock + ε`; otherwise it is rejected as
`OrphanStockViolation` iff `minPurchaseQuantity > 0` and
`ε < stock - total < minPurchaseQuantity - ε`; otherwise it is allowed
with `available = stock`. Scenario B: a `prod_1` line moved by
`updateWarehouse` to request 13 base units from `wh_2` (stock 20, minimum
12) is rejected as an orphan-stock violation, while 8 and 20 succeed. -/
theorem checker_spec_c1 :
    (∀ (ctx : Ctx) (items : List CartItem) (productId warehouseId : String)
        (req : ℚ) (excl : Option Nat) (product : Product),
      ctx.products.find? (fun p => p.id == productId) = some product →
      (product.trackStock = false →
        checkStockAvailability ctx items productId warehouseId req excl =
          ⟨true, none, none⟩) ∧
      (product.trackStock = true →
        ((checkStockAvailability ctx items productId warehouseId req excl).stockRejected
            = true ↔
          inCartQuantity items productId warehouseId excl + req >
            stockOf product warehouseId + eps) ∧
        (inCartQuantity items productId warehouseId excl + req ≤
            stockOf product warehouseId + eps →
          ((checkStockAvailability ctx items productId warehouseId req excl).orphanRejected
              = true ↔
            (product.minPurchaseQuantity.getD 0 > 0 ∧
              eps < stockOf product warehouseId -
                (inCartQuantity items productId warehouseId excl + req) ∧
              stockOf product warehouseId -
                (inCartQuantity items productId warehouseId excl + req) <
                product.minPurchaseQuantity.getD 0 - eps)) ∧
          (¬ (product.minPurchaseQuantity.getD 0 > 0 ∧
              eps < stockOf product warehouseId -
                (inCartQuantity items productId warehouseId excl + req) ∧
              stockOf product warehouseId -
                (inCartQuantity items productId warehouseId excl + req) <
                product.minPurchaseQuantity.getD 0 - eps) →
            checkStockAvailability ctx items productId warehouseId req excl =
              ⟨true, some (stockOf product warehouseId), none⟩)))) ∧
    ((updateWarehouse mockCtx (c1State 13) 0 "wh_2").items = (c1State 13).items ∧
      (updateWarehouse mockCtx (c1State 13) 0 "wh_2").validationError =
        some ⟨.orphanStockMsg 7 12, some "prod_1"⟩ ∧
      (updateWarehouse mockCtx (c1State 8) 0 "wh_2").items =
        [⟨0, "prod_1", 8, 850, "UN", 8, "wh_2"⟩] ∧
      (updateWarehouse mockCtx (c1State 8) 0 "wh_2").validationError = none ∧
      (updateWarehouse mockCtx (c1State 20) 0 "wh_2").items =
        [⟨0, "prod_1", 20, 850, "UN", 20, "wh_2"⟩] ∧
      (updateWarehouse mockCtx (c1State 20) 0 "wh_2").validationError = none) := by
  refine ⟨?_, by decide⟩
  intro ctx items productId warehouseId req excl product hfind
  constructor
  · intro ht
    simp [checkStockAvailability, hfind, ht]
  · intro ht
    by_cases h1 : inCartQuantity items productId warehouseId excl + req >
        stockOf product warehouseId + eps
    · have hr : checkStockAvailability ctx items productId warehouseId req excl =
          ⟨false, some (stockOf product warehouseId),
            some (.stockInsufficientMsg warehouseId (stockOf product warehouseId)
              (inCartQuantity items productId warehouseId excl + req))⟩ := by
        simp [checkStockAvailability, hfind, ht, h1]
      rw [hr]
      exact ⟨iff_of_true rfl h1, fun hle => absurd h1 (not_lt.mpr hle)⟩
    · by_cases h2 : product.minPurchaseQuantity.getD 0 > 0 ∧
          eps < stockOf product warehouseId -
            (inCartQuantity items productId warehouseId excl + req) ∧
          stockOf product warehouseId -
            (inCartQuantity items productId warehouseId excl + req) <
            product.minPurchaseQuantity.getD 0 - eps
      · have hr : checkStockAvailability ctx items productId warehouseId req excl =
            ⟨false, some (stockOf product warehouseId),
              some (.orphanStockMsg
                (stockOf product warehouseId -
                  (inCartQuantity items productId warehouseId excl + req))
                (product.minPurchaseQuantity.getD 0))⟩ := by
          simp only [checkStockAvailability, hfind]
          simp [ht, h1, h2.1, h2.2.1, h2.2.2]
        rw [hr]
        refine ⟨iff_of_false (by simp [CheckOutcome.stockRejected]) h1, fun hle => ?_⟩
        exact ⟨iff_of_true rfl h2, fun hno => absurd h2 hno⟩
      · have hr : checkStockAvailability ctx items productId warehouseId req excl =
            ⟨true, some (stockOf product warehouseId), none⟩ := by
          simp only [checkStockAvailability, hfind]
          simp [ht, h1]
          intro hmin hrem
          rcases not_and_or.mp h2 with hc | hc
          · exact absurd hmin (by simpa using hc)
          · rcases not_and_or.mp hc with hc' | hc'
            · exact absurd hrem (by simpa using hc')
            · simpa using hc'
        rw [hr]
        refine ⟨iff_of_false (by simp [CheckOutcome.stockRejected]) h1, fun hle => ?_⟩
        exact ⟨iff_of_false (by simp [CheckOutcome.orphanRejected]) h2, fun hno => rfl⟩

/-- Witness for C1 at the mock catalog: 13 base units of `prod_1` from
`wh_2` are rejected as orphan stock; the untracked `prod_3` is always
allowed with infinite availability. -/
theorem checker_spec_c1_witness :
    (checkStockAvailability mockCtx [] "prod_1" "wh_2" 13 none).orphanRejected = true ∧
    checkStockAvailability mockCtx [] "prod_3" "wh_1" 5 none = ⟨true, none, none⟩ := by
  have h := checker_spec_c1.1 mockCtx [] "prod_1" "wh_2" 13 none prod1 (by decide)
  have h3 := checker_spec_c1.1 mockCtx [] "prod_3" "wh_1" 5 none prod3 (by decide)
  exact ⟨(((h.2 (by decide)).2 (by decide)).1).mpr (by decide), h3.1 (by decide)⟩

/-- `commitAdd` neither reads nor writes the pending Merge/Split decision. -/
theorem commitAdd_mergeConflict_comm (ctx : Ctx) (items : List CartItem)
    (ve : Option ValidationError) (mc c : Option MergeConflict) (n : Nat)
    (fp : Product) (sp : ProductPackage) (w : String) (q : ℚ) :
    commitAdd ctx ⟨items, ve, c, n⟩ fp sp w q =
      { commitAdd ctx ⟨items, ve, mc, n⟩ fp sp w q with mergeConflict := c } := by
  unfold commitAdd mkItem
  dsimp only
  repeat' split
  all_goals rfl

/-- `executeAddItem` neither reads nor writes the pending decision. -/
theorem executeAddItem_mergeConflict_comm (ctx : Ctx) (items : List CartItem)
    (ve : Option ValidationError) (mc c : Option MergeConflict) (n : Nat)
    (fp : Product) (sp : ProductPackage) (forced : Option String) (q : ℚ) :
    executeAddItem ctx ⟨items, ve, c, n⟩ fp sp forced q =
      { executeAddItem ctx ⟨items, ve, mc, n⟩ fp sp forced q with mergeConflict := c } := by
  unfold executeAddItem
  dsimp only
  repeat' split
  all_goals first
    | rfl
    | exact commitAdd_mergeConflict_comm ctx items ve mc c n fp sp _ q

/-- Counterexample fuel for C3 and general fact: `updateQuantity` performs
no pending-decision guard — it commutes with setting the decision. -/
theorem updateQuantity_mergeConflict_comm (ctx : Ctx) (s : CartState)
    (c : Option MergeConflict) (itemId : Nat) (q : ℚ) :
    updateQuantity ctx { s with mergeConflict := c } itemId q =
      { updateQuantity ctx s itemId q with mergeConflict := c } := by
  obtain ⟨items, ve, mc, n⟩ := s
  unfold updateQuantity
  dsimp only
  repeat' split
  all_goals rfl

/-- `updatePackage` performs no pending-decision guard. -/
theorem updatePackage_mergeConflict_comm (ctx : Ctx) (s : CartState)
    (c : Option MergeConflict) (itemId : Nat) (pn : String) :
    updatePackage ctx { s with mergeConflict := c } itemId pn =
      { updatePackage ctx s itemId pn with mergeConflict := c } := by
  obtain ⟨items, ve, mc, n⟩ := s
  unfold updatePackage
  dsimp only
  repeat' split
  all_goals rfl

/-- `updateWarehouse` performs no pending-decision guard. -/
theorem updateWarehouse_mergeConflict_comm (ctx : Ctx) (s : CartState)
    (c : Option MergeConflict) (itemId : Nat) (w : String) :
    updateWarehouse ctx { s with mergeConflict := c } itemId w =
      { updateWarehouse ctx s itemId w with mergeConflict := c } := by
  obtain ⟨items, ve, mc, n⟩ := s
  unfold updateWarehouse
  dsimp only
  repeat' split
  all_goals rfl

/-- `removeItem` performs no pending-decision guard. -/
theorem removeItem_mergeConflict_comm (s : CartState) (c : Option MergeConflict)
    (itemId : Nat) :
    removeItem { s with mergeConflict := c } itemId =
      { removeItem s itemId with mergeConflict := c } := by
  obtain ⟨items, ve, mc, n⟩ := s
  unfold removeItem
  dsimp only
  repeat' split
  all_goals rfl

/-- `addItem`'s effect on the lines is independent of any pending decision. -/
theorem addItem_mergeConflict_items (ctx : Ctx) (s : CartState)
    (c : Option MergeConflict) (p : Product) (pn : String) :
    (addItem ctx { s with mergeConflict := c } p pn).items = (addItem ctx s p pn).items := by
  obtain ⟨items, ve, mc, n⟩ := s
  unfold addItem
  dsimp only
  repeat' split
  all_goals first
    | rfl
    | (rw [executeAddItem_mergeConflict_comm ctx items none mc c n])

/-- C3 (amended): while a Merge/Split decision is pending, the finalize
entry point is refused (its gate is disabled), and resolving or
abandoning the decision clears it; but the other mutating entry points
perform no pending-decision guard at all — each behaves exactly as it
would with no decision pending (rejection kind `MergeConflictPending`
does not exist), so the cart can be mutated while a decision is
outstanding. -/
theorem pending_gate_amended_c3 :
    (∀ (ctx : Ctx) (s : CartState), s.mergeConflict.isSome = true →
      finalizeOp ctx s = s) ∧
    (∀ (ctx : Ctx) (s : CartState) (c : Option MergeConflict) (itemId : Nat) (q : ℚ),
      updateQuantity ctx { s with mergeConflict := c } itemId q =
        { updateQuantity ctx s itemId q with mergeConflict := c }) ∧
    (∀ (ctx : Ctx) (s : CartState) (c : Option MergeConflict) (itemId : Nat) (pn : String),
      updatePackage ctx { s with mergeConflict := c } itemId pn =
        { updatePackage ctx s itemId pn with mergeConflict := c }) ∧
    (∀ (ctx : Ctx) (s : CartState) (c : Option MergeConflict) (itemId : Nat) (w : String),
      updateWarehouse ctx { s with mergeConflict := c } itemId w =
        { updateWarehouse ctx s itemId w with mergeConflict := c }) ∧
    (∀ (s : CartState) (c : Option MergeConflict) (itemId : Nat),
      removeItem { s with mergeConflict := c } itemId =
        { removeItem s itemId with mergeConflict := c }) ∧
    (∀ (ctx : Ctx) (s : CartState) (c : Option MergeConflict) (p : Product) (pn : String),
      (addItem ctx { s with mergeConflict := c } p pn).items =
        (addItem ctx s p pn).items) ∧
    (∀ (ctx : Ctx) (s : CartState),
      (handleConfirmMerge ctx s).mergeConflict = none ∧
      (handleConfirmSeparate ctx s).mergeConflict = none ∧
      (handleCancelMerge s).mergeConflict = none) := by
  refine ⟨?_, updateQuantity_mergeConflict_comm, updatePackage_mergeConflict_comm,
    updateWarehouse_mergeConflict_comm, removeItem_mergeConflict_comm,
    addItem_mergeConflict_items, ?_⟩
  · intro ctx s h
    simp [finalizeOp, finalizeDisabled, h]
  · intro ctx s
    refine ⟨?_, ?_, rfl⟩
    · unfold handleConfirmMerge
      cases h : s.mergeConflict with
      | none => simpa using h
      | some c => rfl
    · unfold handleConfirmSeparate
      cases h : s.mergeConflict with
      | none => simpa using h
      | some c => rfl

/-- Witness for C3 (amended): finalize refused on the pending-decision
state, and `updateQuantity` on it equals the unguarded run. -/
theorem pending_gate_amended_c3_witness :
    finalizeOp mockCtx c3State = c3State ∧
    updateQuantity mockCtx { goodState with mergeConflict := some pendingConf } 0 2 =
      { updateQuantity mockCtx goodState 0 2 with mergeConflict := some pendingConf } :=
  ⟨pending_gate_amended_c3.1 mockCtx c3State (by decide),
   pending_gate_amended_c3.2.1 mockCtx goodState (some pendingConf) 0 2⟩

/-- C4 (amended): when `updatePackage(lineId, newPackageName)` finds a
colliding line for the same product/warehouse with the new package, the
two lines merge into one whose quantity is the sum; the merge is rejected
— both lines unchanged and a message set — iff the merged quantity
exceeds `MAX_QTY_PER_LINE` or the other lines' base plus the merged base
exceeds the raw warehouse stock (a direct comparison, not the Stock
Availability Checker: no ε tolerance and no orphan-stock rule); on commit
the source line is deleted and the target updated. -/
theorem updatePackage_merge_amended_c4 (ctx : Ctx) (s : CartState) (itemId : Nat)
    (newPackageName : String) (item : CartItem) (fullProduct : Product)
    (newSelectedPackage : ProductPackage) (existingItem : CartItem)
    (hitem : s.items.find? (fun i => i.id == itemId) = some item)
    (hfp : ctx.products.find? (fun p => p.id == item.productId) = some fullProduct)
    (hpk : fullProduct.packages.find? (fun p => p.name == newPackageName) =
      some newSelectedPackage)
    (hex : s.items.find? (fun i => i.id != itemId && i.productId == item.productId &&
        i.warehouseId == item.warehouseId && i.selectedPackage == newPackageName) =
      some existingItem) :
    ((existingItem.quantity + item.quantity > MAX_QTY_PER_LINE ∨
        otherLinesBase s.items fullProduct.id item.warehouseId itemId existingItem.id +
          (existingItem.quantity + item.quantity) * newSelectedPackage.factor >
          stockOf fullProduct item.warehouseId) →
      (updatePackage ctx s itemId newPackageName).items = s.items ∧
      (updatePackage ctx s itemId newPackageName).validationError.isSome = true) ∧
    (existingItem.quantity + item.quantity ≤ MAX_QTY_PER_LINE →
      otherLinesBase s.items fullProduct.id item.warehouseId itemId existingItem.id +
        (existingItem.quantity + item.quantity) * newSelectedPackage.factor ≤
        stockOf fullProduct item.warehouseId →
      (updatePackage ctx s itemId newPackageName).items =
        (s.items.filter (fun i => i.id != itemId)).map (fun i =>
          if i.id == existingItem.id then
            { i with quantity := existingItem.quantity + item.quantity,
                     baseUnitQuantity :=
                       (existingItem.quantity + item.quantity) * newSelectedPackage.factor }
          else i) ∧
      (updatePackage ctx s itemId newPackageName).items.length < s.items.length) := by
  have hitem_mem : item ∈ s.items := List.mem_of_find?_eq_some hitem
  have hitem_id : (item.id != itemId) = false := by
    have := List.find?_some hitem
    simp only [beq_iff_eq] at this
    simp [this]
  unfold updatePackage
  simp only [hitem, hfp, hpk, hex]
  constructor
  · intro h
    by_cases hq : existingItem.quantity + item.quantity > MAX_QTY_PER_LINE
    · rw [if_pos hq]
      exact ⟨rfl, rfl⟩
    · rw [if_neg hq]
      rcases h with h | h
      · exact absurd h hq
      · rw [if_pos h]
        exact ⟨rfl, rfl⟩
  · intro hq hstock
    rw [if_neg (not_lt.mpr hq), if_neg (not_lt.mpr hstock)]
    refine ⟨rfl, ?_⟩
    calc ((s.items.filter (fun i => i.id != itemId)).map (fun i =>
            if i.id == existingItem.id then
              { i with quantity := existingItem.quantity + item.quantity,
                       baseUnitQuantity :=
                         (existingItem.quantity + item.quantity) * newSelectedPackage.factor }
            else i)).length
        = (s.items.filter (fun i => i.id != itemId)).length := List.length_map _ _
      _ < s.items.length := by
          rw [List.length_filter_lt_length_iff_exists]
          exact ⟨item, hitem_mem, by simp [hitem_id]⟩

/-- Witness for C4 (amended) at the counterexample state: the raw merge
conditions hold, so the merge commits and the line count drops. -/
theorem updatePackage_merge_amended_c4_witness :
    (updatePackage mockCtx c4State 1 "UN").items.length < c4State.items.length :=
  ((updatePackage_merge_amended_c4 mockCtx c4State 1 "UN"
      ⟨1, "prod_1", 2, 5000, "CX", 12, "wh_2"⟩ prod1 ⟨"UN", 1, some 850⟩
      ⟨0, "prod_1", 8, 850, "UN", 8, "wh_2"⟩
      (by decide) (by decide) (by decide) (by decide)).2
    (by decide) (by decide)).2

/-- A member of `setFirst pred newItem items` is the new item or an
original member. -/
theorem mem_setFirst {pred : CartItem → Bool} {newItem : CartItem} :
    ∀ {items : List CartItem} {i : CartItem},
      i ∈ setFirst pred newItem items → i = newItem ∨ i ∈ items := by
  intro items
  induction items with
  | nil => intro i h; simp [setFirst] at h
  | cons a t ih =>
    intro i h
    by_cases hp : pred a
    · simp only [setFirst, if_pos hp, List.mem_cons] at h
      rcases h with h | h
      · exact Or.inl h
      · exact Or.inr (List.mem_cons_of_mem _ h)
    · simp only [setFirst, if_neg hp, List.mem_cons] at h
      rcases h with h | h
      · exact Or.inr (by simp [h])
      · rcases ih h with h' | h'
        · exact Or.inl h'
        · exact Or.inr (List.mem_cons_of_mem _ h')

/-- Re-find a product by the id of the product the first find returned. -/
theorem find?_id_refind {l : List Product} {x : String} {fp : Product}
    (h : l.find? (fun p => p.id == x) = some fp) :
    l.find? (fun p => p.id == fp.id) = some fp := by
  have hx : fp.id = x := by simpa using List.find?_some h
  rw [hx]
  exact h

/-- Re-find a package by the name of the package the first find returned. -/
theorem find?_name_refind {l : List ProductPackage} {x : String} {pk : ProductPackage}
    (h : l.find? (fun p => p.name == x) = some pk) :
    l.find? (fun p => p.name == pk.name) = some pk := by
  have hx : pk.name = x := by simpa using List.find?_some h
  rw [hx]
  exact h

/-- `getPriceForPackage` through a successful package lookup. -/
theorem getPriceForPackage_of_find {product : Product} {name : String}
    {pk : ProductPackage}
    (h : product.packages.find? (fun p => p.name == name) = some pk) :
    getPriceForPackage product name = pk.price.getD product.price := by
  unfold getPriceForPackage
  simp only [h]

/-- `setFirst` never changes the number of lines. -/
theorem length_setFirst (pred : CartItem → Bool) (x : CartItem) (l : List CartItem) :
    (setFirst pred x l).length = l.length := by
  induction l with
  | nil => rfl
  | cons a t ih =>
    unfold setFirst
    split
    · rfl
    · simpa using ih

/-- If `commitAdd` appended a line, that line is the fresh one priced by
`getPriceForPackage` (the other branches never extend the list). -/
theorem commitAdd_append_price (ctx : Ctx) (s : CartState) (fp : Product)
    (sp : ProductPackage) (w : String) (q : ℚ) :
    ∀ L : CartItem, (commitAdd ctx s fp sp w q).items = s.items ++ [L] →
      L.unitPrice = getPriceForPackage fp sp.name := by
  intro L hL
  unfold commitAdd at hL
  cases hfind : s.items.find? (fun i => i.productId == fp.id &&
      i.selectedPackage == sp.name && i.warehouseId == w) with
  | some cur =>
    rw [hfind] at hL
    dsimp only at hL
    split_ifs at hL
    · have hlen := congrArg List.length hL
      simp at hlen
    · have hlen := congrArg List.length hL
      simp at hlen
    · have hlen := congrArg List.length hL
      simp only [length_setFirst, List.length_append, List.length_cons,
        List.length_nil] at hlen
      omega
  | none =>
    rw [hfind] at hL
    dsimp only at hL
    split_ifs at hL
    · have hlen := congrArg List.length hL
      simp at hlen
    · have hlen := congrArg List.length hL
      simp at hlen
    · have h2 : mkItem s fp sp w q = L := by simpa using hL
      rw [← h2]
      rfl

/-- If `executeAddItem` appended a line, that line is the fresh one priced
by `getPriceForPackage`. -/
theorem executeAddItem_append_price (ctx : Ctx) (s : CartState) (fp : Product)
    (sp : ProductPackage) (forced : Option String) (q : ℚ) :
    ∀ L : CartItem, (executeAddItem ctx s fp sp forced q).items = s.items ++ [L] →
      L.unitPrice = getPriceForPackage fp sp.name := by
  intro L hL
  unfold executeAddItem at hL
  dsimp only at hL
  repeat' split at hL
  all_goals
    first
      | exact commitAdd_append_price ctx s fp sp _ q L hL
      | (have hlen := congrArg List.length hL
         simp at hlen)

/-- C6 (amended): the line `addItem` creates — the one appended to the
cart — has `unitPrice` equal to the selected package's override price
when present and `product.price` otherwise (never
`product.price * factor`); and when `updatePackage` changes a line's
package with no colliding line and a passing stock check, the result is
exactly the cart with that one line (found by its id) rewritten to the
new package with `unitPrice` repriced by the same rule. -/
theorem unitPrice_amended_c6 :
    (∀ (ctx : Ctx) (s : CartState) (product : Product) (pkgName : String)
        (fullProduct : Product) (selectedPackage : ProductPackage) (L : CartItem),
      ctx.products.find? (fun p => p.id == product.id) = some fullProduct →
      fullProduct.packages.find? (fun p => p.name == pkgName) = some selectedPackage →
      (addItem ctx s product pkgName).items = s.items ++ [L] →
      L.unitPrice = selectedPackage.price.getD fullProduct.price) ∧
    (∀ (ctx : Ctx) (s : CartState) (itemId : Nat) (newPackageName : String)
        (item : CartItem) (fullProduct : Product) (newSelectedPackage : ProductPackage),
      s.items.find? (fun i => i.id == itemId) = some item →
      ctx.products.find? (fun p => p.id == item.productId) = some fullProduct →
      fullProduct.packages.find? (fun p => p.name == newPackageName) =
        some newSelectedPackage →
      s.items.find? (fun i => i.id != itemId && i.productId == item.productId &&
          i.warehouseId == item.warehouseId && i.selectedPackage == newPackageName) =
        none →
      (checkStockAvailability ctx s.items fullProduct.id item.warehouseId
          (item.quantity * newSelectedPackage.factor) (some itemId)).allowed = true →
      (updatePackage ctx s itemId newPackageName).items =
        setFirst (fun i => i.id == itemId)
          { item with selectedPackage := newPackageName,
                      unitPrice := newSelectedPackage.price.getD fullProduct.price,
                      baseUnitQuantity := item.quantity * newSelectedPackage.factor }
          s.items) := by
  constructor
  · intro ctx s product pkgName fullProduct selectedPackage L hfind hpkg hL
    unfold addItem at hL
    simp only [hfind, hpkg] at hL
    split at hL
    · have hlen := congrArg List.length hL
      simp at hlen
    · have h := executeAddItem_append_price ctx { s with validationError := none }
        fullProduct selectedPackage none _ L hL
      rw [getPriceForPackage_of_find (find?_name_refind hpkg)] at h
      exact h
  · intro ctx s itemId newPackageName item fullProduct newSelectedPackage
      hitem hfp hpk hex hallow
    unfold updatePackage
    simp only [hitem, hfp, hpk, hex]
    rw [if_neg (by simp [hallow])]
    rw [getPriceForPackage_of_find hpk]

/-- Witness for C6 (amended): `addItem` on the empty cart appends the
`FARDO` line priced at the override price 1400, and `updatePackage` to
`CX` rewrites the `prod_1` line in place to the `CX` override price 5000. -/
theorem unitPrice_amended_c6_witness :
    (addItem mockCtx emptyCart prod4 "FARDO").items =
      emptyCart.items ++ [⟨0, "prod_4", 1, 1400, "FARDO", 6, "wh_1"⟩] ∧
    (CartItem.mk 0 "prod_4" 1 1400 "FARDO" 6 "wh_1").unitPrice =
      (ProductPackage.mk "FARDO" 6 (some 1400)).price.getD prod4.price ∧
    (updatePackage mockCtx c7State 0 "CX").items =
      [⟨0, "prod_1", 12, 5000, "CX", 72, "wh_1"⟩] := by
  refine ⟨by decide, ?_, ?_⟩
  · exact unitPrice_amended_c6.1 mockCtx emptyCart prod4 "FARDO" prod4
      ⟨"FARDO", 6, some 1400⟩ ⟨0, "prod_4", 1, 1400, "FARDO", 6, "wh_1"⟩
      (by decide) (by decide) (by decide)
  · have h := unitPrice_amended_c6.2 mockCtx c7State 0 "CX"
      ⟨0, "prod_1", 12, 850, "UN", 12, "wh_1"⟩ prod1 ⟨"CX", 6, some 5000⟩
      (by decide) (by decide) (by decide) (by decide) (by decide)
    exact h.trans (by decide)

/-- C7 (amended): the engine does not enforce the per-line minimum
purchase quantity at mutation time. A line whose `baseQuantity` falls
below `minPurchaseQuantity - 0.001` is only flagged with a min-quantity
validation error (first conjunct characterizes the flag), any such flag
refuses finalize (second conjunct), but `updateQuantity` itself commits
any non-negative quantity within `MAX_QTY_PER_LINE` that passes the stock
checker, regardless of the minimum (third conjunct). -/
theorem minQty_amended_c7 :
    (∀ (ctx : Ctx) (item : CartItem) (fullProduct : Product),
      ctx.products.find? (fun p => p.id == item.productId) = some fullProduct →
      fullProduct.minPurchaseQuantity.getD 0 ≠ 0 →
      (itemMinQtyError ctx item = true ↔
        item.baseUnitQuantity < fullProduct.minPurchaseQuantity.getD 0 - 1 / 1000)) ∧
    (∀ (ctx : Ctx) (s : CartState), hasMinQtyErrors ctx s.items = true →
      finalizeOp ctx s = s) ∧
    (∀ (ctx : Ctx) (s : CartState) (itemId : Nat) (q : ℚ) (item : CartItem)
        (fullProduct : Product) (pkg : ProductPackage),
      s.items.find? (fun i => i.id == itemId) = some item →
      ctx.products.find? (fun p => p.id == item.productId) = some fullProduct →
      fullProduct.packages.find? (fun p => p.name == item.selectedPackage) = some pkg →
      ¬ q < 0 → ¬ q > MAX_QTY_PER_LINE →
      (checkStockAvailability ctx s.items fullProduct.id item.warehouseId
          (q * pkg.factor) (some itemId)).allowed = true →
      (updateQuantity ctx s itemId q).items =
        setFirst (fun i => i.id == itemId)
          { item with quantity := q, baseUnitQuantity := q * pkg.factor } s.items) := by
  refine ⟨?_, ?_, ?_⟩
  · intro ctx item fullProduct hfind hmin
    unfold itemMinQtyError
    simp only [hfind]
    rw [if_neg hmin]
    exact decide_eq_true_iff
  · intro ctx s h
    simp [finalizeOp, finalizeDisabled, h]
  · intro ctx s itemId q item fullProduct pkg hitem hfp hpkg hge hle hallow
    unfold updateQuantity
    rw [if_neg hge]
    simp only [hitem, hfp, hpkg]
    rw [if_neg hle, if_neg (by simp [hallow])]

/-- Witness for C7 (amended): the flag fires on a 1-unit `prod_1` line,
such a flag refuses finalize, and `updateQuantity` commits quantity 1
below the minimum of 12. -/
theorem minQty_amended_c7_witness :
    itemMinQtyError mockCtx ⟨0, "prod_1", 1, 850, "UN", 1, "wh_1"⟩ = true ∧
    finalizeOp mockCtx ⟨[⟨0, "prod_1", 1, 850, "UN", 1, "wh_1"⟩], none, none, 1⟩ =
      ⟨[⟨0, "prod_1", 1, 850, "UN", 1, "wh_1"⟩], none, none, 1⟩ ∧
    (updateQuantity mockCtx c7State 0 1).items =
      [⟨0, "prod_1", 1, 850, "UN", 1, "wh_1"⟩] := by
  refine ⟨?_, ?_, ?_⟩
  · exact (minQty_amended_c7.1 mockCtx ⟨0, "prod_1", 1, 850, "UN", 1, "wh_1"⟩ prod1
      (by decide) (by decide)).mpr (by decide)
  · exact minQty_amended_c7.2.1 mockCtx _ (by decide)
  · have h := minQty_amended_c7.2.2 mockCtx c7State 0 1
      ⟨0, "prod_1", 12, 850, "UN", 12, "wh_1"⟩ prod1 ⟨"UN", 1, some 850⟩
      (by decide) (by decide) (by decide) (by decide) (by decide) (by decide)
    exact h.trans (by decide)

/-- `commitAdd` either leaves the lines untouched (a rejection) or leaves
the validation message untouched (a commit). -/
theorem commitAdd_items_or_ve (ctx : Ctx) (s : CartState) (fp : Product)
    (sp : ProductPackage) (w : String) (q : ℚ) :
    (commitAdd ctx s fp sp w q).items = s.items ∨
    (commitAdd ctx s fp sp w q).validationError = s.validationError := by
  unfold commitAdd
  dsimp only
  repeat' split
  all_goals first | exact Or.inl rfl | exact Or.inr rfl

/-- `executeAddItem` either leaves the lines untouched or the message
untouched. -/
theorem executeAddItem_items_or_ve (ctx : Ctx) (s : CartState) (fp : Product)
    (sp : ProductPackage) (forced : Option String) (q : ℚ) :
    (executeAddItem ctx s fp sp forced q).items = s.items ∨
    (executeAddItem ctx s fp sp forced q).validationError = s.validationError := by
  unfold executeAddItem
  dsimp only
  repeat' split
  all_goals first
    | exact commitAdd_items_or_ve ctx s fp sp _ q
    | exact Or.inl rfl
    | exact Or.inr rfl

/-- C8 (amended): mutations are all-or-nothing — starting from a state
with no pending message, every operation either leaves `getLines()`
exactly unchanged or finishes with no validation message (so a rejection,
which always sets or keeps a message, never changes the lines). Not every
rejection is reported, however: precondition failures (unknown line,
product or package, negative quantity, no-op warehouse move) return
silently, as the counterexample shows. -/
theorem rejection_preserves_amended_c8 (ctx : Ctx) (s : CartState)
    (hve : s.validationError = none) :
    (∀ (p : Product) (pn : String),
      (addItem ctx s p pn).items = s.items ∨
      (addItem ctx s p pn).validationError = none) ∧
    ((handleConfirmMerge ctx s).items = s.items ∨
      (handleConfirmMerge ctx s).validationError = none) ∧
    ((handleConfirmSeparate ctx s).items = s.items ∨
      (handleConfirmSeparate ctx s).validationError = none) ∧
    (∀ (itemId : Nat) (q : ℚ),
      (updateQuantity ctx s itemId q).items = s.items ∨
      (updateQuantity ctx s itemId q).validationError = none) ∧
    (∀ (itemId : Nat) (pn : String),
      (updatePackage ctx s itemId pn).items = s.items ∨
      (updatePackage ctx s itemId pn).validationError = none) ∧
    (∀ (itemId : Nat) (w : String),
      (updateWarehouse ctx s itemId w).items = s.items ∨
      (updateWarehouse ctx s itemId w).validationError = none) ∧
    (∀ itemId : Nat,
      (removeItem s itemId).items = s.items ∨
      (removeItem s itemId).validationError = none) ∧
    ((finalizeOp ctx s).items = s.items ∨
      (finalizeOp ctx s).validationError = none) := by
  refine ⟨?_, ?_, ?_, ?_, ?_, ?_, ?_, ?_⟩
  · intro p pn
    unfold addItem
    dsimp only
    repeat' split
    all_goals first
      | exact Or.inl rfl
      | rcases executeAddItem_items_or_ve ctx { s with validationError := none }
            _ _ none _ with h | h
        · exact Or.inl h
        · exact Or.inr h
  · unfold handleConfirmMerge
    split
    · exact Or.inl rfl
    · rcases executeAddItem_items_or_ve ctx s _ _ _ _ with h | h
      · exact Or.inl h
      · exact Or.inr (h.trans hve)
  · unfold handleConfirmSeparate
    split
    · exact Or.inl rfl
    · rcases executeAddItem_items_or_ve ctx s _ _ _ _ with h | h
      · exact Or.inl h
      · exact Or.inr (h.trans hve)
  · intro itemId q
    unfold updateQuantity
    dsimp only
    repeat' split
    all_goals first | exact Or.inl rfl | exact Or.inr rfl
  · intro itemId pn
    unfold updatePackage
    dsimp only
    repeat' split
    all_goals first | exact Or.inl rfl | exact Or.inr rfl
  · intro itemId w
    unfold updateWarehouse
    dsimp only
    repeat' split
    all_goals first | exact Or.inl rfl | exact Or.inr rfl
  · intro itemId
    unfold removeItem
    dsimp only
    repeat' split
    all_goals first
      | exact Or.inl rfl
      | exact Or.inr rfl
      | simp_all
  · unfold finalizeOp handleFinalize
    repeat' split
    all_goals first | exact Or.inl rfl | exact Or.inr rfl

/-- Witness for C8 (amended): from the clean one-line state,
`updateQuantity` to 2 either keeps the lines or ends with no message. -/
theorem rejection_preserves_amended_c8_witness :
    (updateQuantity mockCtx goodState 0 2).items = goodState.items ∨
    (updateQuantity mockCtx goodState 0 2).validationError = none :=
  (rejection_preserves_amended_c8 mockCtx goodState (by decide)).2.2.2.1 0 2

/-- Introduction rule for the per-line invariant. -/
theorem itemWF_intro {ctx : Ctx} {i : CartItem}
    (h : ∀ f, packFactor ctx i = some f → i.baseUnitQuantity = i.quantity * f) :
    ItemWF ctx i := by
  unfold ItemWF itemWFb
  cases hp : packFactor ctx i with
  | none => rfl
  | some f =>
    dsimp only
    simp only [beq_iff_eq]
    exact h f hp

/-- Elimination rule for the per-line invariant. -/
theorem itemWF_elim {ctx : Ctx} {i : CartItem} {f : ℚ}
    (h : ItemWF ctx i) (hp : packFactor ctx i = some f) :
    i.baseUnitQuantity = i.quantity * f := by
  unfold ItemWF itemWFb at h
  rw [hp] at h
  simpa using h

/-- `packFactor` through successful product and package lookups. -/
theorem packFactor_of_finds {ctx : Ctx} {i : CartItem} {P : Product}
    {K : ProductPackage}
    (hfp : ctx.products.find? (fun p => p.id == i.productId) = some P)
    (hpk : P.packages.find? (fun pk => pk.name == i.selectedPackage) = some K) :
    packFactor ctx i = some K.factor := by
  unfold packFactor
  simp [hfp, hpk]

/-- The invariant restricted to a filtered list. -/
theorem ItemsWF_filter {ctx : Ctx} {items : List CartItem}
    (h : ItemsWF ctx items) (p : CartItem → Bool) :
    ItemsWF ctx (items.filter p) :=
  fun i hi => h i (List.mem_filter.mp hi).1

/-- The invariant after replacing the first match with an invariant line. -/
theorem ItemsWF_setFirst {ctx : Ctx} {items : List CartItem}
    {pred : CartItem → Bool} {newItem : CartItem}
    (h : ItemsWF ctx items) (hn : ItemWF ctx newItem) :
    ItemsWF ctx (setFirst pred newItem items) := by
  intro i hi
  rcases mem_setFirst hi with h' | h'
  · exact h' ▸ hn
  · exact h i h'

/-- The invariant after appending one invariant line. -/
theorem ItemsWF_append_single {ctx : Ctx} {items : List CartItem} {x : CartItem}
    (h : ItemsWF ctx items) (hx : ItemWF ctx x) :
    ItemsWF ctx (items ++ [x]) := by
  intro i hi
  rcases List.mem_append.mp hi with h' | h'
  · exact h i h'
  · have hx' : i = x := by simpa using h'
    exact hx' ▸ hx

/-- The invariant after a map whose image lines are all invariant. -/
theorem ItemsWF_map_cond {ctx : Ctx} {items : List CartItem}
    {f : CartItem → CartItem} (h : ∀ i ∈ items, ItemWF ctx (f i)) :
    ItemsWF ctx (items.map f) := by
  intro i hi
  rcases List.mem_map.mp hi with ⟨j, hj, hij⟩
  exact hij ▸ h j hj

/-- With pairwise-distinct ids, two members with the same id coincide. -/
theorem eq_of_nodupIds {items : List CartItem} (h : NodupIds items)
    {a b : CartItem} (ha : a ∈ items) (hb : b ∈ items) (hid : a.id = b.id) :
    a = b :=
  List.inj_on_of_nodup_map h ha hb hid

/-- `commitAdd` preserves the base-quantity invariant. -/
theorem commitAdd_wf (ctx : Ctx) (s : CartState) (fp : Product)
    (sp : ProductPackage) (w : String) (q : ℚ)
    (hfp : ctx.products.find? (fun p => p.id == fp.id) = some fp)
    (hpk : fp.packages.find? (fun pk => pk.name == sp.name) = some sp)
    (hI : ItemsWF ctx s.items) :
    ItemsWF ctx (commitAdd ctx s fp sp w q).items := by
  unfold commitAdd
  cases hfind : s.items.find? (fun i => i.productId == fp.id &&
      i.selectedPackage == sp.name && i.warehouseId == w) with
  | some cur =>
    dsimp only
    split_ifs
    · exact hI
    · exact hI
    · apply ItemsWF_setFirst hI
      apply itemWF_intro
      intro f hf
      have hcur := List.find?_some hfind
      simp only [Bool.and_eq_true, beq_iff_eq] at hcur
      obtain ⟨⟨hpid, hpkg⟩, hwh⟩ := hcur
      have hpf : packFactor ctx cur = some sp.factor := by
        unfold packFactor
        rw [hpid, hpkg]
        simp [hfp, hpk]
      have hf' : packFactor ctx cur = some f := hf
      rw [hpf] at hf'
      have hfe := Option.some.inj hf'
      dsimp only
      rw [hfe]
  | none =>
    dsimp only
    split_ifs
    · exact hI
    · exact hI
    · apply ItemsWF_append_single hI
      apply itemWF_intro
      intro f hf
      have hpf : packFactor ctx (mkItem s fp sp w q) = some sp.factor := by
        unfold packFactor mkItem
        dsimp only
        simp [hfp, hpk]
      rw [hpf] at hf
      have hfe := Option.some.inj hf
      unfold mkItem
      dsimp only
      rw [hfe]

/-- `executeAddItem` preserves the base-quantity invariant. -/
theorem executeAddItem_wf (ctx : Ctx) (s : CartState) (fp : Product)
    (sp : ProductPackage) (forced : Option String) (q : ℚ)
    (hfp : ctx.products.find? (fun p => p.id == fp.id) = some fp)
    (hpk : fp.packages.find? (fun pk => pk.name == sp.name) = some sp)
    (hI : ItemsWF ctx s.items) :
    ItemsWF ctx (executeAddItem ctx s fp sp forced q).items := by
  unfold executeAddItem
  dsimp only
  repeat' split
  all_goals first
    | exact commitAdd_wf ctx s fp sp _ q hfp hpk hI
    | exact hI

/-- `addItem` preserves the base-quantity invariant. -/
theorem addItem_wf (ctx : Ctx) (s : CartState) (p : Product) (pn : String)
    (hI : ItemsWF ctx s.items) :
    ItemsWF ctx (addItem ctx s p pn).items := by
  unfold addItem
  cases hfind : ctx.products.find? (fun x => x.id == p.id) with
  | none => exact hI
  | some fp =>
    dsimp only
    cases hpkg : fp.packages.find? (fun x => x.name == pn) with
    | none => exact hI
    | some sp =>
      dsimp only
      split
      · exact hI
      · exact executeAddItem_wf ctx { s with validationError := none } fp sp none _
          (find?_id_refind hfind) (find?_name_refind hpkg) hI

/-- Resolving the pending decision by merge preserves the invariant,
provided the stored conflict references the catalog consistently. -/
theorem handleConfirmMerge_wf (ctx : Ctx) (s : CartState)
    (hI : ItemsWF ctx s.items) (hc : ConflictWF ctx s.mergeConflict) :
    ItemsWF ctx (handleConfirmMerge ctx s).items := by
  unfold handleConfirmMerge
  cases hmc : s.mergeConflict with
  | none => exact hI
  | some c =>
    dsimp only
    unfold ConflictWF conflictWFb at hc
    rw [hmc] at hc
    simp only [Bool.and_eq_true, beq_iff_eq] at hc
    exact executeAddItem_wf ctx s c.product c.selectedPackage _ _ hc.1 hc.2 hI

/-- Resolving the pending decision by separation preserves the invariant. -/
theorem handleConfirmSeparate_wf (ctx : Ctx) (s : CartState)
    (hI : ItemsWF ctx s.items) (hc : ConflictWF ctx s.mergeConflict) :
    ItemsWF ctx (handleConfirmSeparate ctx s).items := by
  unfold handleConfirmSeparate
  cases hmc : s.mergeConflict with
  | none => exact hI
  | some c =>
    dsimp only
    unfold ConflictWF conflictWFb at hc
    rw [hmc] at hc
    simp only [Bool.and_eq_true, beq_iff_eq] at hc
    exact executeAddItem_wf ctx s c.product c.selectedPackage _ _ hc.1 hc.2 hI

/-- `updateQuantity` preserves the base-quantity invariant. -/
theorem updateQuantity_wf (ctx : Ctx) (s : CartState) (itemId : Nat) (q : ℚ)
    (hI : ItemsWF ctx s.items) :
    ItemsWF ctx (updateQuantity ctx s itemId q).items := by
  unfold updateQuantity
  by_cases h0 : q < 0
  · rw [if_pos h0]; exact hI
  · rw [if_neg h0]
    cases hitem : s.items.find? (fun i => i.id == itemId) with
    | none => exact hI
    | some item =>
      dsimp only
      cases hfp : ctx.products.find? (fun pr => pr.id == item.productId) with
      | none => exact hI
      | some fp =>
        dsimp only
        cases hpkg : fp.packages.find? (fun pk => pk.name == item.selectedPackage) with
        | none => exact hI
        | some pkg =>
          dsimp only
          split_ifs
          · exact hI
          · exact hI
          · apply ItemsWF_setFirst hI
            apply itemWF_intro
            intro f hf
            have hpf : packFactor ctx item = some pkg.factor :=
              packFactor_of_finds hfp hpkg
            have hf' : packFactor ctx item = some f := hf
            rw [hpf] at hf'
            have hfe := Option.some.inj hf'
            dsimp only
            rw [hfe]

/-- `updatePackage` preserves the base-quantity invariant (ids distinct). -/
theorem updatePackage_wf (ctx : Ctx) (s : CartState) (itemId : Nat) (pn : String)
    (hI : ItemsWF ctx s.items) (hnd : NodupIds s.items) :
    ItemsWF ctx (updatePackage ctx s itemId pn).items := by
  unfold updatePackage
  cases hitem : s.items.find? (fun i => i.id == itemId) with
  | none => exact hI
  | some item =>
    dsimp only
    cases hfp : ctx.products.find? (fun pr => pr.id == item.productId) with
    | none => exact hI
    | some fp =>
      dsimp only
      cases hpkg : fp.packages.find? (fun pk => pk.name == pn) with
      | none => exact hI
      | some nsp =>
        dsimp only
        cases hex : s.items.find? (fun i => i.id != itemId &&
            i.productId == item.productId && i.warehouseId == item.warehouseId &&
            i.selectedPackage == pn) with
        | some ex =>
          dsimp only
          split_ifs
          · exact hI
          · exact hI
          · apply ItemsWF_map_cond
            intro j hj
            have hjs : j ∈ s.items := (List.mem_filter.mp hj).1
            by_cases hid : (j.id == ex.id) = true
            · rw [if_pos hid]
              have hex_mem : ex ∈ s.items := List.mem_of_find?_eq_some hex
              have hjex : j = ex := eq_of_nodupIds hnd hjs hex_mem (by simpa using hid)
              subst hjex
              apply itemWF_intro
              intro f hf
              have hprops := List.find?_some hex
              simp only [Bool.and_eq_true, beq_iff_eq, bne_iff_ne] at hprops
              obtain ⟨⟨⟨hne, hpid⟩, hwh⟩, hsel⟩ := hprops
              have hpf : packFactor ctx j = some nsp.factor := by
                unfold packFactor
                rw [hpid, hsel]
                simp [hfp, hpkg]
              have hf' : packFactor ctx j = some f := hf
              rw [hpf] at hf'
              have hfe := Option.some.inj hf'
              dsimp only
              rw [hfe]
            · rw [if_neg hid]
              exact hI j hjs
        | none =>
          dsimp only
          split_ifs
          · exact hI
          · apply ItemsWF_setFirst hI
            apply itemWF_intro
            intro f hf
            have hpf : packFactor ctx { item with selectedPackage := pn } = some nsp.factor := by
              unfold packFactor
              dsimp only
              simp [hfp, hpkg]
            have hf' : packFactor ctx { item with selectedPackage := pn } = some f := hf
            rw [hpf] at hf'
            have hfe := Option.some.inj hf'
            dsimp only
            rw [hfe]

/-- `updateWarehouse` preserves the base-quantity invariant (ids distinct,
catalog factors positive). -/
theorem updateWarehouse_wf (ctx : Ctx) (s : CartState) (itemId : Nat) (w : String)
    (hI : ItemsWF ctx s.items) (hnd : NodupIds s.items) (hcat : CatalogWF ctx) :
    ItemsWF ctx (updateWarehouse ctx s itemId w).items := by
  unfold updateWarehouse
  cases hitem : s.items.find? (fun i => i.id == itemId) with
  | none => exact hI
  | some item =>
    dsimp only
    by_cases hsame : (item.warehouseId == w) = true
    · rw [if_pos hsame]; exact hI
    · rw [if_neg hsame]
      cases hfp : ctx.products.find? (fun pr => pr.id == item.productId) with
      | none => exact hI
      | some fp =>
        dsimp only
        split_ifs with hchk
        · exact hI
        · cases hex : s.items.find? (fun i => i.id != itemId &&
              i.productId == item.productId &&
              i.selectedPackage == item.selectedPackage && i.warehouseId == w) with
          | none =>
            dsimp only
            apply ItemsWF_setFirst hI
            apply itemWF_intro
            intro f hf
            have hf' : packFactor ctx item = some f := hf
            exact itemWF_elim (hI item (List.mem_of_find?_eq_some hitem)) hf'
          | some ex =>
            dsimp only
            have hprops := List.find?_some hex
            simp only [Bool.and_eq_true, beq_iff_eq, bne_iff_ne] at hprops
            obtain ⟨⟨⟨hne, hpid⟩, hsel⟩, hwh⟩ := hprops
            have hex_mem : ex ∈ s.items := List.mem_of_find?_eq_some hex
            cases hpkf : fp.packages.find? (fun pk => pk.name == item.selectedPackage) with
            | none =>
              dsimp only
              split_ifs
              · exact hI
              · exact hI
              · apply ItemsWF_filter
                apply ItemsWF_map_cond
                intro j hj
                by_cases hid : (j.id == ex.id) = true
                · rw [if_pos hid]
                  have hjex : j = ex := eq_of_nodupIds hnd hj hex_mem (by simpa using hid)
                  subst hjex
                  apply itemWF_intro
                  intro f hf
                  have hpf : packFactor ctx j = none := by
                    unfold packFactor
                    rw [hpid, hsel]
                    simp [hfp, hpkf]
                  have hf' : packFactor ctx j = some f := hf
                  rw [hpf] at hf'
                  exact Option.noConfusion hf'
                · rw [if_neg hid]
                  exact hI j hj
            | some K =>
              dsimp only
              split_ifs
              · exact hI
              · exact hI
              · apply ItemsWF_filter
                apply ItemsWF_map_cond
                intro j hj
                by_cases hid : (j.id == ex.id) = true
                · rw [if_pos hid]
                  have hjex : j = ex := eq_of_nodupIds hnd hj hex_mem (by simpa using hid)
                  subst hjex
                  apply itemWF_intro
                  intro f hf
                  have hKmem : K ∈ fp.packages := List.mem_of_find?_eq_some hpkf
                  have hfpmem : fp ∈ ctx.products := List.mem_of_find?_eq_some hfp
                  have hpos : 0 < K.factor := hcat fp hfpmem K hKmem
                  have hjsOr : jsOr K.factor 1 = K.factor := by
                    unfold jsOr
                    rw [if_neg (ne_of_gt hpos)]
                  have hpf : packFactor ctx j = some K.factor := by
                    unfold packFactor
                    rw [hpid, hsel]
                    simp [hfp, hpkf]
                  have hf' : packFactor ctx j = some f := hf
                  rw [hpf] at hf'
                  have hfe := Option.some.inj hf'
                  dsimp only
                  rw [hjsOr, hfe]
                · rw [if_neg hid]
                  exact hI j hj

/-- `removeItem` preserves the base-quantity invariant. -/
theorem removeItem_wf (ctx : Ctx) (s : CartState) (itemId : Nat)
    (hI : ItemsWF ctx s.items) :
    ItemsWF ctx (removeItem s itemId).items := by
  unfold removeItem
  cases hitem : s.items.find? (fun i => i.id == itemId) with
  | none => exact hI
  | some item =>
    dsimp only
    exact ItemsWF_filter hI _

/-- C9: after every successful mutating operation — addItem, resolving the
Merge/Split decision either way, updateQuantity, updatePackage,
updateWarehouse and removeItem — every line still satisfies
`baseQuantity = quantity * factor` for the factor of its current package,
given a catalog with positive factors, a cart satisfying the invariant
with pairwise-distinct line ids, and a catalog-consistent pending
decision. -/
theorem baseQuantity_invariant_c9 (ctx : Ctx) (s : CartState)
    (hcat : CatalogWF ctx) (hI : ItemsWF ctx s.items) (hnd : NodupIds s.items)
    (hc : ConflictWF ctx s.mergeConflict) :
    (∀ (p : Product) (pn : String), ItemsWF ctx (addItem ctx s p pn).items) ∧
    ItemsWF ctx (handleConfirmMerge ctx s).items ∧
    ItemsWF ctx (handleConfirmSeparate ctx s).items ∧
    (∀ (itemId : Nat) (q : ℚ), ItemsWF ctx (updateQuantity ctx s itemId q).items) ∧
    (∀ (itemId : Nat) (pn : String), ItemsWF ctx (updatePackage ctx s itemId pn).items) ∧
    (∀ (itemId : Nat) (w : String), ItemsWF ctx (updateWarehouse ctx s itemId w).items) ∧
    (∀ itemId : Nat, ItemsWF ctx (removeItem s itemId).items) :=
  ⟨fun p pn => addItem_wf ctx s p pn hI,
   handleConfirmMerge_wf ctx s hI hc,
   handleConfirmSeparate_wf ctx s hI hc,
   fun itemId q => updateQuantity_wf ctx s itemId q hI,
   fun itemId pn => updatePackage_wf ctx s itemId pn hI hnd,
   fun itemId w => updateWarehouse_wf ctx s itemId w hI hnd hcat,
   fun itemId => removeItem_wf ctx s itemId hI⟩

/-- Witness for C9 at the mock catalog and the one-line state. -/
theorem baseQuantity_invariant_c9_witness :
    ItemsWF mockCtx (updateQuantity mockCtx goodState 0 3).items :=
  (baseQuantity_invariant_c9 mockCtx goodState (by decide) (by decide)
    (by decide) (by decide)).2.2.2.1 0 3

end POSCart
